import Mathlib

set_option maxHeartbeats 1000000

/-!
Shallow embedding of the pricing engine of `price_calculator2.py` (primary
definitions below) and of `price_calculator.py` (namespace `PriceCalculator1`).

Machine floats are modelled by exact rationals (`ℚ`); a Python
`ZeroDivisionError` is modelled by returning `none` (`Option`), raised exactly
where Python would raise it, namely at a division whose divisor is zero.
Python's `range(n)` over a possibly negative `int` iterates `n.toNat` times,
so loop counters taken from user input are `ℤ` and the loops run `toNat` steps.
-/

/-- One row of the yearly projection table built by `calculate_yearly_prices`:
the dict `{'year': year, 'price': current_price, 'reduction': cr}`. -/
structure YearlyEntry where
  year : ℕ
  price : ℚ
  reduction : ℚ
deriving DecidableEq

/-- The input dict assembled by `input_section` / the sidebar form:
keys `base_price`, `cr`, `cr_years`, `bl`, `payment_before`,
`payment_after`, `annual_interest`. -/
structure PricingInputs where
  base_price : ℚ
  cr : ℚ
  cr_years : ℤ
  bl : ℚ
  payment_before : ℚ
  payment_after : ℚ
  annual_interest : ℚ
deriving DecidableEq

/-- The result dict returned by `calculate_results`: keys `base_with_cr`,
`base_with_bl`, `piece_finance_cost`, `final_price`, `yearly_prices`. -/
structure PricingResult where
  base_with_cr : ℚ
  base_with_bl : ℚ
  piece_finance_cost : ℚ
  final_price : ℚ
  yearly_prices : List YearlyEntry
deriving DecidableEq

/-- The accumulator loop of `calculate_price_with_cr`:
`cr_rate = 1` then `cr_rate *= (1 - cr/100)` once per iteration of
`range(cr_years)`. -/
def cr_loop (cr : ℚ) : ℕ → ℚ
  | 0 => 1
  | n + 1 => cr_loop cr n * (1 - cr / 100)

/-- `calculate_price_with_cr(base_price, cr, cr_years)` from
`price_calculator2.py` lines 58-62: runs the accumulator loop, then returns
`base_price / cr_rate`; the division raises `ZeroDivisionError` (here: `none`)
when the accumulated divisor is zero. -/
def calculate_price_with_cr (base_price cr : ℚ) (cr_years : ℤ) : Option ℚ :=
  if cr_loop cr cr_years.toNat = 0 then none
  else some (base_price / cr_loop cr cr_years.toNat)

/-- `calculate_price_with_bl(price, bl)` from `price_calculator2.py`
lines 64-65: `price / (1 - bl/100)`, `none` on division by zero. -/
def calculate_price_with_bl (price bl : ℚ) : Option ℚ :=
  if (1 - bl / 100) = 0 then none
  else some (price / (1 - bl / 100))

/-- `calculate_finance_cost(price, annual_interest, payment_before,
payment_after)` from `price_calculator2.py` lines 67-70:
`daily_interest = annual_interest / 365 / 100`;
`delay_days = payment_after - payment_before`;
returns `price * daily_interest * delay_days`. Total (no division by a
variable), so it returns a plain `ℚ`. -/
def calculate_finance_cost (price annual_interest payment_before payment_after : ℚ) : ℚ :=
  price * (annual_interest / 365 / 100) * (payment_after - payment_before)

/-- The `for year in range(1, cr_years + 1)` loop body of
`calculate_yearly_prices`: append `{year, price: current_price, reduction: cr}`
then `current_price *= (1 - cr/100)`; `n` counts the remaining iterations. -/
def yearly_loop (cr : ℚ) : ℚ → ℕ → ℕ → List YearlyEntry
  | _, _, 0 => []
  | current_price, year, n + 1 =>
      { year := year, price := current_price, reduction := cr } ::
        yearly_loop cr (current_price * (1 - cr / 100)) (year + 1) n

/-- `calculate_yearly_prices(initial_price, cr, cr_years)` from
`price_calculator2.py` lines 72-82: the loop over `range(1, cr_years + 1)`
(empty when `cr_years ≤ 0`) starting from `initial_price`. -/
def calculate_yearly_prices (initial_price cr : ℚ) (cr_years : ℤ) : List YearlyEntry :=
  yearly_loop cr initial_price 1 cr_years.toNat

/-- `calculate_results(inputs)` from `price_calculator2.py` lines 154-168:
the fixed pipeline CR → BL → finance cost → final price → yearly projection,
bundled into the result dict. `none` exactly when one of the two divisions
raises. -/
def calculate_results (inputs : PricingInputs) : Option PricingResult :=
  match calculate_price_with_cr inputs.base_price inputs.cr inputs.cr_years with
  | none => none
  | some price_with_cr =>
    match calculate_price_with_bl price_with_cr inputs.bl with
    | none => none
    | some price_with_bl =>
      let finance_cost := calculate_finance_cost price_with_bl inputs.annual_interest
        inputs.payment_before inputs.payment_after
      let final_price := price_with_bl + finance_cost
      let yearly_prices := calculate_yearly_prices final_price inputs.cr inputs.cr_years
      some { base_with_cr := price_with_cr, base_with_bl := price_with_bl,
             piece_finance_cost := finance_cost, final_price := final_price,
             yearly_prices := yearly_prices }

/-- The derived reporting view from `create_analysis_df`
(`price_calculator2.py` lines 284-294): `base_with_cr - base_price`. -/
def cr_increase (inputs : PricingInputs) (results : PricingResult) : ℚ :=
  results.base_with_cr - inputs.base_price

/-- From `create_analysis_df`: `base_with_bl - base_with_cr`. -/
def bl_increase (results : PricingResult) : ℚ :=
  results.base_with_bl - results.base_with_cr

/-- From `create_analysis_df`: `final_price - base_price`. -/
def total_increase (inputs : PricingInputs) (results : PricingResult) : ℚ :=
  results.final_price - inputs.base_price

/-- One persisted entry of `calculation_history.json`, as built by
`save_calculation` in `price_calculator2.py` lines 46-56
(`price_calculator.py`'s variant has no `scenario_name`, hence `Option`). -/
structure ScenarioRecord where
  timestamp : String
  scenario_name : Option String
  inputs : PricingInputs
  results : PricingResult
deriving DecidableEq

/-- The history store: `none` models the file `calculation_history.json`
being absent, `some h` models it holding the JSON array `h`. -/
def HistoryStore : Type := Option (List ScenarioRecord)

/-- `load_saved_results()` from `price_calculator2.py` lines 40-44: returns
the parsed file contents when the file exists, else `[]`. -/
def load_saved_results : HistoryStore → List ScenarioRecord
  | none => []
  | some h => h

/-- `save_calculation(scenario_name, inputs, results)` from
`price_calculator2.py` lines 46-56: load the history, append the new record
(timestamp supplied by the clock, modelled as an argument), rewrite the whole
file. Returns the new store state. -/
def save_calculation (store : HistoryStore) (timestamp : String)
    (scenario_name : Option String) (inputs : PricingInputs)
    (results : PricingResult) : HistoryStore :=
  some (load_saved_results store ++
    [{ timestamp := timestamp, scenario_name := scenario_name,
       inputs := inputs, results := results }])

namespace PriceCalculator1

/-- The accumulator loop of `calculate_price_with_cr` in
`price_calculator.py` lines 31-33 (textually the same loop as in
`price_calculator2.py`). -/
def cr_loop (cr : ℚ) : ℕ → ℚ
  | 0 => 1
  | n + 1 => cr_loop cr n * (1 - cr / 100)

/-- `calculate_price_with_cr` from `price_calculator.py` lines 29-34. -/
def calculate_price_with_cr (base_price cr : ℚ) (cr_years : ℤ) : Option ℚ :=
  if cr_loop cr cr_years.toNat = 0 then none
  else some (base_price / cr_loop cr cr_years.toNat)

/-- `calculate_price_with_bl` from `price_calculator.py` lines 36-38. -/
def calculate_price_with_bl (price bl : ℚ) : Option ℚ :=
  if (1 - bl / 100) = 0 then none
  else some (price / (1 - bl / 100))

/-- `calculate_finance_cost` from `price_calculator.py` lines 40-44. -/
def calculate_finance_cost (price annual_interest payment_before payment_after : ℚ) : ℚ :=
  price * (annual_interest / 365 / 100) * (payment_after - payment_before)

/-- The loop body of `calculate_yearly_prices` in `price_calculator.py`
lines 51-57. -/
def yearly_loop (cr : ℚ) : ℚ → ℕ → ℕ → List YearlyEntry
  | _, _, 0 => []
  | current_price, year, n + 1 =>
      { year := year, price := current_price, reduction := cr } ::
        yearly_loop cr (current_price * (1 - cr / 100)) (year + 1) n

/-- `calculate_yearly_prices` from `price_calculator.py` lines 46-58. -/
def calculate_yearly_prices (initial_price cr : ℚ) (cr_years : ℤ) : List YearlyEntry :=
  yearly_loop cr initial_price 1 cr_years.toNat

/-- The per-scenario computation inlined in `main` of `price_calculator.py`
lines 76-96: the same CR → BL → finance → final → yearly pipeline, stored in
`st.session_state.results` under the same keys as `calculate_results`. -/
def main_compute (inputs : PricingInputs) : Option PricingResult :=
  match calculate_price_with_cr inputs.base_price inputs.cr inputs.cr_years with
  | none => none
  | some price_with_cr =>
    match calculate_price_with_bl price_with_cr inputs.bl with
    | none => none
    | some price_with_bl =>
      let finance_cost := calculate_finance_cost price_with_bl inputs.annual_interest
        inputs.payment_before inputs.payment_after
      let final_price := price_with_bl + finance_cost
      let yearly_prices := calculate_yearly_prices final_price inputs.cr inputs.cr_years
      some { base_with_cr := price_with_cr, base_with_bl := price_with_bl,
             piece_finance_cost := finance_cost, final_price := final_price,
             yearly_prices := yearly_prices }

end PriceCalculator1

/-! ### Helper lemmas about the embedded functions -/

/-- The CR accumulator loop computes the compounding divisor
`(1 - cr/100) ^ n`. -/
lemma cr_loop_eq_pow (cr : ℚ) (n : ℕ) : cr_loop cr n = (1 - cr / 100) ^ n := by
  induction n with
  | zero => rfl
  | succ n ih => rw [cr_loop, ih, pow_succ]

/-- Characterisation of a successful CR step. -/
lemma calculate_price_with_cr_eq_some (base cr : ℚ) (y : ℤ) (a : ℚ) :
    calculate_price_with_cr base cr y = some a ↔
      (1 - cr / 100) ^ y.toNat ≠ 0 ∧ a = base / (1 - cr / 100) ^ y.toNat := by
  unfold calculate_price_with_cr
  rw [cr_loop_eq_pow]
  split <;> simp_all [eq_comm]

/-- Characterisation of a successful BL step. -/
lemma calculate_price_with_bl_eq_some (price bl a : ℚ) :
    calculate_price_with_bl price bl = some a ↔
      (1 - bl / 100) ≠ 0 ∧ a = price / (1 - bl / 100) := by
  unfold calculate_price_with_bl
  split <;> simp_all [eq_comm]

/-- Unpacking a successful run of the aggregator: every field of the result
is given by the corresponding pipeline stage. -/
lemma calculate_results_fields (inputs : PricingInputs) (r : PricingResult)
    (h : calculate_results inputs = some r) :
    (1 - inputs.cr / 100) ^ inputs.cr_years.toNat ≠ 0 ∧
    (1 - inputs.bl / 100) ≠ 0 ∧
    r.base_with_cr = inputs.base_price / (1 - inputs.cr / 100) ^ inputs.cr_years.toNat ∧
    r.base_with_bl = r.base_with_cr / (1 - inputs.bl / 100) ∧
    r.piece_finance_cost = calculate_finance_cost r.base_with_bl inputs.annual_interest
      inputs.payment_before inputs.payment_after ∧
    r.final_price = r.base_with_bl + r.piece_finance_cost ∧
    r.yearly_prices = calculate_yearly_prices r.final_price inputs.cr inputs.cr_years := by
  unfold calculate_results at h
  split at h
  · exact absurd h (by simp)
  · rename_i a ha
    split at h
    · exact absurd h (by simp)
    · rename_i b hb
      obtain ⟨ha1, ha2⟩ := (calculate_price_with_cr_eq_some _ _ _ _).mp ha
      obtain ⟨hb1, hb2⟩ := (calculate_price_with_bl_eq_some _ _ _).mp hb
      obtain rfl := Option.some.injEq _ _ ▸ h
      refine ⟨ha1, hb1, ?_, ?_, rfl, rfl, rfl⟩
      · simpa using ha2
      · simpa using hb2

/-- Closed form for the projection loop: starting at `p` in year `year` with
`n` iterations left, entry `i` is `{year + i, p * (1 - cr/100)^i, cr}`. -/
lemma yearly_loop_eq_map (cr : ℚ) : ∀ (n : ℕ) (p : ℚ) (year : ℕ),
    yearly_loop cr p year n =
      (List.range n).map fun i =>
        { year := year + i, price := p * (1 - cr / 100) ^ i, reduction := cr } := by
  intro n
  induction n with
  | zero => intro p year; rfl
  | succ n ih =>
    intro p year
    rw [yearly_loop, ih, List.range_succ_eq_map, List.map_cons, List.map_map]
    congr 1
    · simp
    · congr 1
      funext i
      simp only [Function.comp_apply, YearlyEntry.mk.injEq, Nat.succ_eq_add_one, pow_succ]
      exact ⟨by omega, by ring, trivial⟩

/-- Closed form for `calculate_yearly_prices`. -/
lemma calculate_yearly_prices_eq_map (p cr : ℚ) (y : ℤ) :
    calculate_yearly_prices p cr y =
      (List.range y.toNat).map fun i =>
        { year := i + 1, price := p * (1 - cr / 100) ^ i, reduction := cr } := by
  unfold calculate_yearly_prices
  rw [yearly_loop_eq_map]
  congr 1
  funext i
  simp [Nat.add_comm]

/-! ### Claim theorems -/

/-- C1: for every `PricingInputs`, a successful run of the scenario
aggregator `calculate_results` computes its result by the fixed pipeline:
`base_with_cr` is the CR stage on `base_price`, `base_with_bl` is the BL
stage on `base_with_cr`, `piece_finance_cost` is the finance stage on
`base_with_bl`, `final_price = base_with_bl + piece_finance_cost`, and
`yearly_prices` is the projection of `final_price`; in particular the
invariant `final_price = price_after_bl + finance_cost` always holds. -/
theorem calculate_results_pipeline (inputs : PricingInputs) (r : PricingResult)
    (h : calculate_results inputs = some r) :
    calculate_price_with_cr inputs.base_price inputs.cr inputs.cr_years = some r.base_with_cr ∧
    calculate_price_with_bl r.base_with_cr inputs.bl = some r.base_with_bl ∧
    r.piece_finance_cost = calculate_finance_cost r.base_with_bl inputs.annual_interest
      inputs.payment_before inputs.payment_after ∧
    r.final_price = r.base_with_bl + r.piece_finance_cost ∧
    r.yearly_prices = calculate_yearly_prices r.final_price inputs.cr inputs.cr_years := by
  obtain ⟨h1, h2, h3, h4, h5, h6, h7⟩ := calculate_results_fields inputs r h
  refine ⟨?_, ?_, h5, h6, h7⟩
  · rw [calculate_price_with_cr_eq_some]; exact ⟨h1, h3⟩
  · rw [calculate_price_with_bl_eq_some]; exact ⟨h2, h4⟩

/-- Witness for C1 at the all-zero scenario. -/
theorem calculate_results_pipeline_witness :
    calculate_price_with_cr 0 0 0 = some 0 ∧
    calculate_price_with_bl 0 0 = some 0 ∧
    (0 : ℚ) = calculate_finance_cost 0 0 0 0 ∧
    (0 : ℚ) = 0 + 0 ∧
    ([] : List YearlyEntry) = calculate_yearly_prices 0 0 0 :=
  calculate_results_pipeline ⟨0, 0, 0, 0, 0, 0, 0⟩ ⟨0, 0, 0, 0, []⟩ (by
    norm_num [calculate_results, calculate_price_with_cr, calculate_price_with_bl,
      calculate_finance_cost, calculate_yearly_prices, cr_loop, yearly_loop])

/-- C2: for every `base_price`, `cr` and integer `cr_years ≥ 0` (with the
compounding divisor nonzero, i.e. not the `cr = 100` ZeroDivisionError case),
`calculate_price_with_cr` returns `base_price` divided by the divisor
`(1 - cr/100) ^ cr_years`; when `cr_years = 0` or `cr = 0` the divisor is `1`
and the result is `base_price` unchanged. -/
theorem calculate_price_with_cr_formula (base cr : ℚ) (y : ℤ) (hy : 0 ≤ y)
    (h : (1 - cr / 100) ^ y.toNat ≠ 0) :
    calculate_price_with_cr base cr y = some (base / (1 - cr / 100) ^ y.toNat) ∧
    ((y = 0 ∨ cr = 0) → calculate_price_with_cr base cr y = some base) := by
  constructor
  · rw [calculate_price_with_cr_eq_some]; exact ⟨h, rfl⟩
  · rintro (rfl | rfl)
    · rw [calculate_price_with_cr_eq_some]; simp
    · rw [calculate_price_with_cr_eq_some]; simp

/-- Witness for C2 at `base = 9`, `cr = 50`, `cr_years = 2`. -/
theorem calculate_price_with_cr_formula_witness :
    calculate_price_with_cr 9 50 2 = some (9 / (1 - 50 / 100) ^ Int.toNat 2) :=
  (calculate_price_with_cr_formula 9 50 2 (by norm_num) (by norm_num)).1

/-- C5: for every starting price, `cr`, and integer `cr_years ≥ 0`, the
yearly projection has exactly `cr_years` entries (empty when `cr_years = 0`),
entry `i` carries year `i + 1` (years ascending `1..cr_years`) and
`reduction = cr`, the first entry's price is the starting price unmodified,
and each subsequent entry's price is the previous one times `(1 - cr/100)`. -/
theorem calculate_yearly_prices_spec (p cr : ℚ) (y : ℤ) (hy : 0 ≤ y) :
    (calculate_yearly_prices p cr y).length = y.toNat ∧
    (∀ i (h : i < (calculate_yearly_prices p cr y).length),
      ((calculate_yearly_prices p cr y).get ⟨i, h⟩).year = i + 1 ∧
      ((calculate_yearly_prices p cr y).get ⟨i, h⟩).reduction = cr) ∧
    (∀ h0 : 0 < (calculate_yearly_prices p cr y).length,
      ((calculate_yearly_prices p cr y).get ⟨0, h0⟩).price = p) ∧
    (∀ i (h1 : i + 1 < (calculate_yearly_prices p cr y).length),
      ((calculate_yearly_prices p cr y).get ⟨i + 1, h1⟩).price =
        ((calculate_yearly_prices p cr y).get ⟨i, Nat.lt_of_succ_lt h1⟩).price *
          (1 - cr / 100)) := by
  have key := calculate_yearly_prices_eq_map p cr y
  refine ⟨by simp [key], ?_, ?_, ?_⟩
  · intro i h
    simp [key, List.get_eq_getElem, List.getElem_map, List.getElem_range]
  · intro h0
    simp [key, List.get_eq_getElem, List.getElem_map, List.getElem_range]
  · intro i h1
    simp only [key, List.get_eq_getElem, List.getElem_map, List.getElem_range]
    rw [pow_succ]
    ring

/-- Witness for C5 at `p = 8`, `cr = 50`, `cr_years = 2`. -/
theorem calculate_yearly_prices_spec_witness :
    (calculate_yearly_prices 8 50 2).length = Int.toNat 2 :=
  (calculate_yearly_prices_spec 8 50 2 (by norm_num)).1

/-- C3 counterexample: `cr_rate = 150 ≥ 100` is not rejected with an
`InvalidRateError` — the CR stage computes straight through the negative
divisor `1 - 150/100 = -1/2` and returns `some (-200)`. -/
theorem invalid_rate_not_raised_cex :
    calculate_price_with_cr 100 150 1 = some (-200) := by
  norm_num [calculate_price_with_cr, cr_loop]

/-- C3 (amended): the code performs no rate validation and defines no
`InvalidRateError`. A rate of exactly 100 zeroes the divisor so the division
itself fails (Python `ZeroDivisionError`, modelled `none`): `cr = 100` with
`cr_years ≥ 1` in the CR stage and `bl = 100` in the BL stage. A rate
strictly above 100 is not rejected at all: the divisor is negative and a
(sign-flipped) result is returned. -/
theorem rate_boundary_behavior (base price cr bl cr2 bl2 : ℚ) (y : ℤ)
    (hcr : cr = 100) (hy : 1 ≤ y) (hbl : bl = 100)
    (hcr2 : 100 < cr2) (hbl2 : 100 < bl2) :
    calculate_price_with_cr base cr y = none ∧
    calculate_price_with_bl price bl = none ∧
    (calculate_price_with_cr base cr2 y).isSome = true ∧
    (calculate_price_with_bl price bl2).isSome = true := by
  subst hcr hbl
  refine ⟨?_, ?_, ?_, ?_⟩
  · have hn : y.toNat ≠ 0 := by omega
    have h0 : (1 - 100 / 100 : ℚ) = 0 := by norm_num
    unfold calculate_price_with_cr
    rw [cr_loop_eq_pow, h0, zero_pow hn]
    simp
  · norm_num [calculate_price_with_bl]
  · have hq : (1 - cr2 / 100 : ℚ) ≠ 0 := by
      have : (1 - cr2 / 100 : ℚ) < 0 := by linarith
      exact ne_of_lt this
    have hpow := pow_ne_zero y.toNat hq
    unfold calculate_price_with_cr
    rw [cr_loop_eq_pow]
    simp [hpow]
  · have hq : (1 - bl2 / 100 : ℚ) ≠ 0 := by
      have : (1 - bl2 / 100 : ℚ) < 0 := by linarith
      exact ne_of_lt this
    unfold calculate_price_with_bl
    simp [hq]

/-- Witness for the amended C3 at `cr = bl = 100`, `cr2 = bl2 = 150`,
`cr_years = 1`. -/
theorem rate_boundary_behavior_witness :
    calculate_price_with_cr 7 100 1 = none ∧
    calculate_price_with_bl 5 100 = none ∧
    (calculate_price_with_cr 7 150 1).isSome = true ∧
    (calculate_price_with_bl 5 150).isSome = true :=
  rate_boundary_behavior 7 5 100 100 150 150 1 rfl (by norm_num) rfl
    (by norm_num) (by norm_num)

/-- C4 counterexample: `base_price = -5`, `cr_years = -1` and
`annual_interest_rate = -3` are all negative, yet `calculate_results`
returns a normal result instead of rejecting with an `InvalidRangeError`. -/
theorem invalid_range_not_raised_cex :
    (calculate_results ⟨-5, 3, -1, 1, 60, 120, -3⟩).isSome = true := by
  have h0 : ((-1 : ℤ)).toNat = 0 := rfl
  norm_num [calculate_results, calculate_price_with_cr, calculate_price_with_bl,
    calculate_finance_cost, cr_loop, h0]

/-- C4 (amended): the code performs no range validation and defines no
`InvalidRangeError`: any input whose two divisors are nonzero — including
inputs with negative `base_price`, negative `annual_interest` and negative
`cr_years` — produces a normal result. A negative `cr_years` simply makes the
`range` loops empty, so the CR stage returns `base_price` unchanged and the
yearly projection is empty. -/
theorem negative_inputs_not_rejected (inputs : PricingInputs) (p : ℚ)
    (hcr : (1 - inputs.cr / 100) ^ inputs.cr_years.toNat ≠ 0)
    (hbl : (1 - inputs.bl / 100) ≠ 0) :
    (calculate_results inputs).isSome = true ∧
    (inputs.cr_years < 0 →
      calculate_price_with_cr inputs.base_price inputs.cr inputs.cr_years =
        some inputs.base_price ∧
      calculate_yearly_prices p inputs.cr inputs.cr_years = []) := by
  constructor
  · unfold calculate_results calculate_price_with_cr calculate_price_with_bl
    simp only [cr_loop_eq_pow]
    simp [hcr, hbl]
  · intro hneg
    have h0 : inputs.cr_years.toNat = 0 := by omega
    constructor
    · unfold calculate_price_with_cr
      rw [h0]
      simp [cr_loop]
    · unfold calculate_yearly_prices
      rw [h0]
      rfl

/-- Witness for the amended C4 at `base_price = -7`, `cr_years = -2`,
`annual_interest = -6`. -/
theorem negative_inputs_not_rejected_witness :
    (calculate_results ⟨-7, 2, -2, 3, 1, 4, -6⟩).isSome = true :=
  (negative_inputs_not_rejected ⟨-7, 2, -2, 3, 1, 4, -6⟩ 11
    (by rw [show ((-2 : ℤ)).toNat = 0 from rfl]; norm_num) (by norm_num)).1

/-- C6: for every successfully computed scenario with
`cr ∈ (0,100)`, `bl ∈ (0,100)`, `cr_years > 0` and `base_price ≥ 0`, the
adjustment chain only inflates:
`base_price ≤ price_after_cr ≤ price_after_bl`. -/
theorem price_chain_monotone (inputs : PricingInputs) (r : PricingResult)
    (h : calculate_results inputs = some r)
    (hcr0 : 0 < inputs.cr) (hcr1 : inputs.cr < 100)
    (hbl0 : 0 < inputs.bl) (hbl1 : inputs.bl < 100)
    (hy : 0 < inputs.cr_years) (hbase : 0 ≤ inputs.base_price) :
    inputs.base_price ≤ r.base_with_cr ∧ r.base_with_cr ≤ r.base_with_bl := by
  obtain ⟨h1, h2, h3, h4, -, -, -⟩ := calculate_results_fields inputs r h
  have hq0 : 0 < 1 - inputs.cr / 100 := by linarith
  have hq1 : 1 - inputs.cr / 100 ≤ 1 := by linarith
  have hd0 : 0 < (1 - inputs.cr / 100) ^ inputs.cr_years.toNat := pow_pos hq0 _
  have hd1 : (1 - inputs.cr / 100) ^ inputs.cr_years.toNat ≤ 1 :=
    pow_le_one₀ (le_of_lt hq0) hq1
  have hcr_ge : inputs.base_price ≤ r.base_with_cr := by
    rw [h3, le_div_iff₀ hd0]
    exact mul_le_of_le_one_right hbase hd1
  refine ⟨hcr_ge, ?_⟩
  have he0 : 0 < 1 - inputs.bl / 100 := by linarith
  have he1 : 1 - inputs.bl / 100 ≤ 1 := by linarith
  have hpos : 0 ≤ r.base_with_cr := le_trans hbase hcr_ge
  rw [h4, le_div_iff₀ he0]
  exact mul_le_of_le_one_right hpos he1

/-- Witness for C6 at `base = 100`, `cr = bl = 50`, `cr_years = 1`. -/
theorem price_chain_monotone_witness :
    (100 : ℚ) ≤ 200 ∧ (200 : ℚ) ≤ 400 :=
  price_chain_monotone ⟨100, 50, 1, 50, 0, 0, 0⟩ ⟨200, 400, 0, 400, [⟨1, 400, 50⟩]⟩
    (by norm_num [calculate_results, calculate_price_with_cr, calculate_price_with_bl,
      calculate_finance_cost, calculate_yearly_prices, cr_loop, yearly_loop])
    (by norm_num) (by norm_num) (by norm_num) (by norm_num) (by norm_num) (by norm_num)

/-- C7: the finance cost is exactly
`price * (annual_interest / 365 / 100) * (payment_after - payment_before)`,
and with positive price and interest a negative delay
(`payment_after < payment_before`) yields a strictly negative cost — a signed
credit is computed, the input is not rejected. -/
theorem calculate_finance_cost_spec (price annual_interest pb pa : ℚ)
    (hp : 0 < price) (hi : 0 < annual_interest) (hlt : pa < pb) :
    calculate_finance_cost price annual_interest pb pa =
      price * (annual_interest / 365 / 100) * (pa - pb) ∧
    calculate_finance_cost price annual_interest pb pa < 0 := by
  refine ⟨rfl, ?_⟩
  unfold calculate_finance_cost
  have h1 : 0 < price * (annual_interest / 365 / 100) := by positivity
  have h2 : pa - pb < 0 := by linarith
  exact mul_neg_of_pos_of_neg h1 h2

/-- Witness for C7 at `price = 1`, `interest = 1`, days `2 → 1`. -/
theorem calculate_finance_cost_spec_witness :
    calculate_finance_cost 1 1 2 1 = 1 * (1 / 365 / 100) * (1 - 2) ∧
    calculate_finance_cost 1 1 2 1 < 0 :=
  calculate_finance_cost_spec 1 1 2 1 (by norm_num) (by norm_num) (by norm_num)

/-- C8: for every computed scenario the increase breakdown of
`create_analysis_df` sums exactly over the rationals:
`cr_increase + bl_increase + finance_cost = total_increase`. -/
theorem increase_breakdown_sums (inputs : PricingInputs) (r : PricingResult)
    (h : calculate_results inputs = some r) :
    cr_increase inputs r + bl_increase r + r.piece_finance_cost =
      total_increase inputs r := by
  obtain ⟨-, -, -, -, -, h6, -⟩ := calculate_results_fields inputs r h
  unfold cr_increase bl_increase total_increase
  rw [h6]
  ring

/-- Witness for C8 at `base = 10`, all rates zero. -/
theorem increase_breakdown_sums_witness :
    cr_increase ⟨10, 0, 0, 0, 0, 0, 0⟩ ⟨10, 10, 0, 10, []⟩ +
      bl_increase ⟨10, 10, 0, 10, []⟩ + (0 : ℚ) =
    total_increase ⟨10, 0, 0, 0, 0, 0, 0⟩ ⟨10, 10, 0, 10, []⟩ :=
  increase_breakdown_sums ⟨10, 0, 0, 0, 0, 0, 0⟩ ⟨10, 10, 0, 10, []⟩
    (by norm_num [calculate_results, calculate_price_with_cr, calculate_price_with_bl,
      calculate_finance_cost, calculate_yearly_prices, cr_loop, yearly_loop])

/-- C9: round-trip persistence. Saving a record and then loading the history
yields exactly the previously stored records in order, with the saved record
appended as the last element (append-only); loading when no store exists
yields the empty sequence. -/
theorem save_load_roundtrip (store : HistoryStore) (timestamp : String)
    (scenario_name : Option String) (inputs : PricingInputs)
    (results : PricingResult) :
    load_saved_results (save_calculation store timestamp scenario_name inputs results) =
      load_saved_results store ++
        [{ timestamp := timestamp, scenario_name := scenario_name,
           inputs := inputs, results := results }] ∧
    (load_saved_results (save_calculation store timestamp scenario_name inputs results)).getLast? =
      some { timestamp := timestamp, scenario_name := scenario_name,
             inputs := inputs, results := results } ∧
    load_saved_results (none : HistoryStore) = [] := by
  refine ⟨rfl, ?_, rfl⟩
  show (load_saved_results store ++ [_]).getLast? = _
  simp

/-- Pointwise equality of the two CR accumulator loops, one per file. -/
lemma pc1_cr_loop_eq (cr : ℚ) (n : ℕ) :
    PriceCalculator1.cr_loop cr n = cr_loop cr n := by
  induction n with
  | zero => rfl
  | succ n ih => rw [PriceCalculator1.cr_loop, cr_loop, ih]

/-- Pointwise equality of the two projection loops, one per file. -/
lemma pc1_yearly_loop_eq (cr : ℚ) : ∀ (n : ℕ) (p : ℚ) (year : ℕ),
    PriceCalculator1.yearly_loop cr p year n = yearly_loop cr p year n := by
  intro n
  induction n with
  | zero => intro p year; rfl
  | succ n ih =>
    intro p year
    rw [PriceCalculator1.yearly_loop, yearly_loop, ih]

/-- C10: each of the four pricing-stage functions of `price_calculator.py`
agrees pointwise with the identically named function of
`price_calculator2.py`, so the full per-scenario computation (the pipeline
inlined in `main` of the first file vs `calculate_results` of the second) is
the same function. -/
theorem implementations_agree (base price cr bl pb pa annual_interest : ℚ)
    (y : ℤ) (inputs : PricingInputs) :
    PriceCalculator1.calculate_price_with_cr base cr y =
      calculate_price_with_cr base cr y ∧
    PriceCalculator1.calculate_price_with_bl price bl =
      calculate_price_with_bl price bl ∧
    PriceCalculator1.calculate_finance_cost price annual_interest pb pa =
      calculate_finance_cost price annual_interest pb pa ∧
    PriceCalculator1.calculate_yearly_prices price cr y =
      calculate_yearly_prices price cr y ∧
    PriceCalculator1.main_compute inputs = calculate_results inputs := by
  have hcr : ∀ (b c : ℚ) (z : ℤ),
      PriceCalculator1.calculate_price_with_cr b c z = calculate_price_with_cr b c z := by
    intro b c z
    unfold PriceCalculator1.calculate_price_with_cr calculate_price_with_cr
    rw [pc1_cr_loop_eq]
  have hbl : ∀ p b : ℚ,
      PriceCalculator1.calculate_price_with_bl p b = calculate_price_with_bl p b :=
    fun _ _ => rfl
  have hfc : ∀ p i b a : ℚ,
      PriceCalculator1.calculate_finance_cost p i b a = calculate_finance_cost p i b a :=
    fun _ _ _ _ => rfl
  have hyp : ∀ (p c : ℚ) (z : ℤ),
      PriceCalculator1.calculate_yearly_prices p c z = calculate_yearly_prices p c z := by
    intro p c z
    unfold PriceCalculator1.calculate_yearly_prices calculate_yearly_prices
    rw [pc1_yearly_loop_eq]
  refine ⟨hcr base cr y, hbl price bl, hfc price annual_interest pb pa,
    hyp price cr y, ?_⟩
  unfold PriceCalculator1.main_compute calculate_results
  simp only [hcr, hbl, hfc, hyp]
